import Mathlib

/-!
Shallow embedding of the pixel-perfect visual-regression tool (TypeScript)
into Lean 4, covering the diff engine, the screenshot-capture pipeline,
the browser session pool and the report aggregator.

External collaborators (the sharp raster library, the pixelmatch comparison
primitive, the Playwright browser engine, and the file system) are modelled
as explicit environment records of functions; the repository's own logic is
translated statement by statement from the TypeScript source.
-/

set_option autoImplicit false

namespace PixelPerfect

/-- Node path.basename (POSIX flavour, as used on the forward-slash paths the
tool builds): the component after the last slash. -/
def basename (p : String) : String :=
  (p.splitOn "/").getLastD p

/-- Node path.dirname (POSIX flavour): everything before the last slash, or
"." when the path has no slash.  Normalisation of duplicate slashes is
omitted; the embedded code only uses the result as an opaque file-system key. -/
def dirname (p : String) : String :=
  let parts := p.splitOn "/"
  if parts.length ≤ 1 then "." else String.intercalate "/" parts.dropLast

/-- Node path.join of three segments, without normalisation (the tool joins
plain relative segments, where join is plain slash-interposition). -/
def joinPath3 (a b c : String) : String :=
  a ++ "/" ++ b ++ "/" ++ c

/-- Baseline path derivation used by both DiffManager iterations
(src/src/core/DiffManager.ts line 42, src/unnamed/part_007 line 78):
path.join(path.dirname(filepath), "baseline", path.basename(filepath)). -/
def baselinePathOf (filepath : String) : String :=
  joinPath3 (dirname filepath) "baseline" (basename filepath)

/-- JS String.prototype.replace with a string pattern: replaces only the
first occurrence, used for filepath.replace(".png", "-diff.png").
Character-list worker. -/
def replaceFirstAux (pat rep : List Char) : List Char → List Char
  | [] => []
  | c :: cs =>
    if (c :: cs).take pat.length = pat then rep ++ (c :: cs).drop pat.length
    else c :: replaceFirstAux pat rep cs

/-- JS String.prototype.replace with a string pattern (first occurrence only). -/
def replaceFirst (s pat rep : String) : String :=
  String.mk (replaceFirstAux pat.toList rep.toList s.toList)

/-- JS Number.prototype.toFixed(2) for the nonnegative percentages the tool
prints: round to the nearest multiple of 1/100, ties away from zero
(ECMAScript picks the larger candidate), rendered with exactly two decimals. -/
def toFixed2 (q : ℚ) : String :=
  let n : ℤ := ⌊q * 100 + 1 / 2⌋
  let i : ℤ := n / 100
  let f : ℤ := n % 100
  toString i ++ "." ++ (if f < 10 then "0" else "") ++ toString f

/-- Screenshot metadata record (src/src/types/index.ts). The optional
viewport is irrelevant to the verified properties and is omitted. -/
structure Screenshot where
  device : String
  filepath : String
  timestamp : Option String := none
deriving Repr, DecidableEq

/-- Result of comparing a screenshot against its baseline
(src/src/types/index.ts, interface DiffResult). -/
structure DiffResult where
  device : String
  hasDiff : Bool
  diffPercentage : ℚ
  diffPath : Option String
  message : String
deriving Repr, DecidableEq

/-- Options forwarded to the pixelmatch primitive by the basic DiffManager
(threshold plus includeAA; the primitive itself is external). -/
structure PMOptions where
  threshold : ℚ
  includeAA : Bool
deriving Repr

/-- Environment of external collaborators consumed by the diff engine: the
file system (fs.access), the sharp decoder (raw buffers and metadata) and the
pixelmatch comparison primitive, which returns a differing-pixel count and
fills the output diff buffer.  Raw buffers are byte lists.  A decode result
of none models a sharp failure (a thrown error). -/
structure RasterEnv where
  fileExists : String → Bool
  decode : String → Option (List ℕ)
  decodeGray : String → Option (List ℕ)
  metadata : String → Option (ℕ × ℕ)
  pixelmatch : List ℕ → List ℕ → ℕ → ℕ → PMOptions → ℕ × List ℕ

namespace DiffManager

/-- Thresholds record of the basic DiffManager (src/src/core/DiffManager.ts
constructor): pixelMatch defaults to 0.1. -/
structure Thresholds where
  pixelMatch : ℚ := 1 / 10
deriving Repr

/-- Embedding of DiffManager.compareScreenshot (src/src/core/DiffManager.ts
lines 39-122).  Derives the baseline path; when the baseline file is absent
returns the fixed no-baseline record; otherwise decodes both images, reads
the current image metadata, runs pixelmatch and assembles the DiffResult.
Decode or metadata failures propagate as errors, mirroring the rethrow in the
source.  The write of the diff image file is modelled as always succeeding,
so every DiffResult the source can produce is also produced here. -/
def compareScreenshot (env : RasterEnv) (cfg : Thresholds) (s : Screenshot) :
    Except String DiffResult :=
  let baselinePath := baselinePathOf s.filepath
  if env.fileExists baselinePath then
    match env.decode s.filepath, env.decode baselinePath, env.metadata s.filepath with
    | some currentImage, some baselineImage, some (w, h) =>
      let diffPixels :=
        (env.pixelmatch currentImage baselineImage w h
          { threshold := cfg.pixelMatch, includeAA := true }).1
      let diffPercentage : ℚ := (diffPixels : ℚ) / ((w : ℚ) * (h : ℚ)) * 100
      let hasDiff : Bool := decide (0 < diffPercentage)
      let diffPath : Option String :=
        if hasDiff then some (replaceFirst s.filepath ".png" "-diff.png") else none
      .ok
        { device := s.device
          hasDiff := hasDiff
          diffPercentage := diffPercentage
          diffPath := diffPath
          message :=
            if hasDiff then
              "Found " ++ toString diffPixels ++ " different pixels (" ++
                toFixed2 diffPercentage ++ "%)"
            else "No differences found" }
    | _, _, _ => .error "image processing failed"
  else
    .ok
      { device := s.device
        hasDiff := false
        diffPercentage := 0
        diffPath := none
        message := "No baseline available for comparison" }

/-- Embedding of DiffManager.compare (src/src/core/DiffManager.ts lines
22-37): sequential loop over the screenshots, pushing one result each; any
per-screenshot error is rethrown, aborting the whole comparison. -/
def compare (env : RasterEnv) (cfg : Thresholds) :
    List Screenshot → Except String (List DiffResult)
  | [] => .ok []
  | s :: rest =>
    match compareScreenshot env cfg s with
    | .error e => .error e
    | .ok d =>
      match compare env cfg rest with
      | .error e => .error e
      | .ok ds => .ok (d :: ds)

/-- Differing-pixel count the engine would obtain for a screenshot, when the
baseline exists and decoding succeeds (the count pixelmatch returns under the
configured tolerance; zero means the images matched under tolerance). -/
def pixelmatchCount (env : RasterEnv) (cfg : Thresholds) (s : Screenshot) :
    Option ℕ :=
  match env.decode s.filepath, env.decode (baselinePathOf s.filepath),
      env.metadata s.filepath with
  | some currentImage, some baselineImage, some (w, h) =>
    some ((env.pixelmatch currentImage baselineImage w h
      { threshold := cfg.pixelMatch, includeAA := true }).1)
  | _, _, _ => none

end DiffManager

namespace SmartDiff

/-- Ignore-region rectangle (src/unnamed/part_007, interface DiffOptions).
Coordinates are JS numbers and may be negative; integer coordinates are
modelled. -/
structure Rect where
  x : ℤ
  y : ℤ
  width : ℤ
  height : ℤ
deriving Repr, DecidableEq

/-- Diffing options of the smart DiffManager (src/unnamed/part_007,
constructor defaults at lines 36-43). -/
structure DiffOptions where
  threshold : ℚ := 1 / 10
  ignoreAntialiasing : Bool := true
  ignoreColors : Bool := false
  ignoreTransparency : Bool := true
  ignoreRegions : List Rect := []
deriving Repr

/-- Diff result of the smart DiffManager, which also records the browser
(src/unnamed/part_007 return objects at lines 91-98 and 150-161). -/
structure SDiffResult where
  device : String
  browser : String
  hasDiff : Bool
  diffPercentage : ℚ
  diffPath : Option String
  message : String
deriving Repr, DecidableEq

/-- Screenshot record carrying the browser, as consumed by the smart
DiffManager (destructured at src/unnamed/part_007 line 77). -/
structure SScreenshot where
  device : String
  browser : String
  filepath : String
deriving Repr, DecidableEq

/-- Pixel coordinates visited by the two nested loops of applyIgnoreRegions
for one region, in loop order: y from region.y while y < region.y +
region.height (outer), x from region.x while x < region.x + region.width
(inner).  A non-positive width or height gives no iterations, exactly as in
the source loops. -/
def regionCoords (r : Rect) : List (ℤ × ℤ) :=
  (List.range r.height.toNat).flatMap fun j =>
    (List.range r.width.toNat).map fun i => (r.x + i, r.y + j)

/-- Zeroes the four RGBA bytes starting at idx, as the four assignments at
src/unnamed/part_007 lines 203-206.  List.set out of range is a no-op, like
an out-of-range Buffer index store. -/
def zeroPixel (buf : List ℕ) (idx : ℕ) : List ℕ :=
  ((((buf.set idx 0).set (idx + 1) 0).set (idx + 2) 0).set (idx + 3) 0)

/-- Membership test of the bounds check at src/unnamed/part_007 line 201:
x >= 0 && x < width && y >= 0 && y < height. -/
def inBounds (w h : ℕ) (xy : ℤ × ℤ) : Bool :=
  decide (0 ≤ xy.1) && decide (xy.1 < (w : ℤ)) &&
    decide (0 ≤ xy.2) && decide (xy.2 < (h : ℤ))

/-- Embedding of DiffManager.applyIgnoreRegions (src/unnamed/part_007 lines
193-211): for every configured region, zero the RGBA bytes of every pixel of
the diff buffer whose coordinates fall inside the region and inside the
image bounds.  Note that the source mutates only the diff image buffer: the
differing-pixel count computed earlier by pixelmatch is not touched. -/
def applyIgnoreRegions (regions : List Rect) (diffImage : List ℕ)
    (width height : ℕ) : List ℕ :=
  regions.foldl
    (fun buf region =>
      (regionCoords region).foldl
        (fun buf xy =>
          if inBounds width height xy then
            zeroPixel buf ((xy.2 * (width : ℤ) + xy.1) * 4).toNat
          else buf)
        buf)
    diffImage

/-- Embedding of DiffManager.preprocessImage (src/unnamed/part_007 lines
176-185): decode the image raw, converting to grayscale first when
ignoreColors is set. -/
def preprocessImage (env : RasterEnv) (options : DiffOptions) (p : String) :
    Option (List ℕ) :=
  if options.ignoreColors then env.decodeGray p else env.decode p

/-- Embedding of the smart DiffManager.compareScreenshot (src/unnamed/
part_007 lines 75-169).  Returns the DiffResult together with the content of
the diff image file written when hasDiff holds (none when no file is
written), so the persisted visualization is observable.  Order follows the
source: pixelmatch produces the count and fills the diff buffer, then, when
ignoreRegions is non-empty, applyIgnoreRegions zeroes the masked pixels of
the buffer, and only then the percentage is computed from the unadjusted
count. -/
def compareScreenshot (env : RasterEnv) (options : DiffOptions)
    (s : SScreenshot) : Except String (SDiffResult × Option (List ℕ)) :=
  let baselinePath := baselinePathOf s.filepath
  if env.fileExists baselinePath then
    match preprocessImage env options s.filepath,
        preprocessImage env options baselinePath, env.metadata s.filepath with
    | some currentImage, some baselineImage, some (w, h) =>
      let pm :=
        env.pixelmatch currentImage baselineImage w h
          { threshold := options.threshold,
            includeAA := !options.ignoreAntialiasing }
      let diffPixels := pm.1
      let diffImage :=
        if options.ignoreRegions.length > 0 then
          applyIgnoreRegions options.ignoreRegions pm.2 w h
        else pm.2
      let diffPercentage : ℚ := (diffPixels : ℚ) / ((w : ℚ) * (h : ℚ)) * 100
      let hasDiff : Bool := decide (0 < diffPercentage)
      let diffPath : Option String :=
        if hasDiff then some (replaceFirst s.filepath ".png" "-diff.png") else none
      .ok
        ({ device := s.device
           browser := s.browser
           hasDiff := hasDiff
           diffPercentage := diffPercentage
           diffPath := diffPath
           message :=
             if hasDiff then
               "Found " ++ toString diffPixels ++ " different pixels (" ++
                 toFixed2 diffPercentage ++ "%)"
             else "No differences found" },
         if hasDiff then some diffImage else none)
    | _, _, _ => .error "image processing failed"
  else
    .ok
      ({ device := s.device
         browser := s.browser
         hasDiff := false
         diffPercentage := 0
         diffPath := none
         message := "No baseline available for comparison" },
       none)

end SmartDiff

/-- Browser engine kinds (src/src/core/BrowserManager.ts, type BrowserType). -/
inductive BrowserType where
  | chromium
  | firefox
  | webkit
deriving Repr, DecidableEq

/-- Device profile (src/src/types/index.ts, interface Device). -/
structure Device where
  name : String
  viewportWidth : ℕ
  viewportHeight : ℕ
  deviceScaleFactor : ℚ
  isMobile : Bool
  hasTouch : Bool
  userAgent : String
deriving Repr, DecidableEq

namespace ScreenshotManager

/-- Embedding of ScreenshotManager.createBatches (src/src/core/
ScreenshotManager.ts lines 139-145) and of the equivalent inline slicing
loop of the retrying iteration (src/unnamed/part_006 lines 175-176): split
the list into consecutive slices of at most batchSize elements.  The source
loop for i = 0, i += batchSize never terminates when batchSize = 0; here
that ill-formed case returns the empty list, and every theorem about
batching assumes 0 < batchSize. -/
def createBatches {α : Type} (batchSize : ℕ) : List α → List (List α)
  | [] => []
  | x :: xs =>
    if _h : batchSize = 0 then []
    else
      (x :: xs).take batchSize :: createBatches batchSize ((x :: xs).drop batchSize)
termination_by items => items.length
decreasing_by
  simp only [List.length_drop, List.length_cons]
  omega

/-- Per-batch step of the retrying captureScreenshots (src/unnamed/part_006
lines 177-191): every capture of the batch runs with a per-target catch that
records the error and yields null, then the nulls are filtered out.  The
capture collaborator (Playwright navigation plus screenshot, per device) is
an explicit function returning ok or an error message. -/
def captureBatch (capture : Device → Except String Screenshot)
    (batch : List Device) : List Screenshot × List String :=
  let results := batch.map capture
  (results.filterMap (fun r => r.toOption),
   results.filterMap (fun r => match r with | .error e => some e | .ok _ => none))

/-- Sequencing of the batches by the retrying captureScreenshots
(src/unnamed/part_006 lines 173-192): batch N+1 starts only after batch N
has fully settled; successful screenshots and caught errors are appended in
batch order. -/
def runBatches (capture : Device → Except String Screenshot) :
    List (List Device) → List Screenshot × List String
  | [] => ([], [])
  | b :: bs =>
    let first := captureBatch capture b
    let rest := runBatches capture bs
    (first.1 ++ rest.1, first.2 ++ rest.2)

/-- Embedding of the retrying ScreenshotManager.captureScreenshots
(src/unnamed/part_006 lines 165-209): batch the devices by
maxParallelBrowsers, run each batch with per-target error capture, return
the successful screenshots (failures are logged into the error list and
excluded).  The function is total: per-target failures never propagate. -/
def captureScreenshots (capture : Device → Except String Screenshot)
    (maxParallelBrowsers : ℕ) (devices : List Device) :
    List Screenshot × List String :=
  runBatches capture (createBatches maxParallelBrowsers devices)

/-- Navigation events observable from the retry loop of captureScreenshot
(src/unnamed/part_006 lines 234-251): a goto attempt (numbered from 0) or a
fixed backoff sleep in milliseconds. -/
inductive NavEvent where
  | attempt (idx : ℕ)
  | sleep (ms : ℕ)
deriving Repr, DecidableEq

/-- Worker for the navigation retry loop: retries is the remaining-attempt
counter (initially 3), k the index of the next attempt; goto k tells whether
attempt k succeeds.  Mirrors: while retries > 0, try goto and break on
success; on failure decrement retries, throw when it reaches 0, otherwise
sleep 2000 ms and loop.  The counter-0 case corresponds to the loop
condition failing without an attempt, unreachable from the initial value 3. -/
def navLoop (goto : ℕ → Bool) : ℕ → ℕ → Bool × List NavEvent
  | 0, _ => (true, [])
  | retries + 1, k =>
    if goto k then (true, [NavEvent.attempt k])
    else if retries = 0 then (false, [NavEvent.attempt k])
    else
      let rest := navLoop goto retries (k + 1)
      (rest.1, NavEvent.attempt k :: NavEvent.sleep 2000 :: rest.2)

/-- Embedding of the navigation-with-retry block of
ScreenshotManager.captureScreenshot (src/unnamed/part_006 lines 234-251):
let retries = 3; attempt page.goto, and on failure retry after a 2000 ms
backoff, raising the navigation error only when the counter is exhausted.
Returns whether navigation succeeded together with the event trace. -/
def navigateWithRetry (goto : ℕ → Bool) : Bool × List NavEvent :=
  navLoop goto 3 0

/-- Batch schedule of the multi-browser captureScreenshots
(src/src/core/ScreenshotManager.ts lines 62-79): the devices are batched by
maxParallelBrowsers via createBatches, and each batch launches one capture
per (device, browserType) pair — batch.flatMap over browserTypes.map — all
awaited together by Promise.all before the next batch starts.  Each inner
list is the set of capture operations simultaneously in flight during that
batch. -/
def captureSchedule (devices : List Device) (browserTypes : List BrowserType)
    (maxParallelBrowsers : ℕ) : List (List (Device × BrowserType)) :=
  (createBatches maxParallelBrowsers devices).map fun batch =>
    batch.flatMap fun device => browserTypes.map fun bt => (device, bt)

end ScreenshotManager

namespace BrowserManager

/-- Mutable state of a BrowserManager (src/src/core/BrowserManager.ts lines
20-21): the map from engine kind to live browser handle and the context
cache keyed by browserType-deviceName strings.  Maps are modelled as
association lists; handle and context types are parameters. -/
structure State (β γ : Type) where
  browsers : List (BrowserType × β)
  contexts : List (String × γ)

/-- Embedding of BrowserManager.getActiveBrowserCount (src/src/core/
BrowserManager.ts lines 134-136): the size of the browsers map. -/
def getActiveBrowserCount {β γ : Type} (st : State β γ) : ℕ :=
  st.browsers.length

/-- Embedding of BrowserManager.cleanup (src/src/core/BrowserManager.ts
lines 118-129).  The close collaborator returns true when browser.close()
succeeds and false when it throws; the loop visits every entry of the
browsers map in order, attempting the close inside a try/catch that only
logs a failure, then clears both the browsers map and the context cache.
The returned log records, per entry in iteration order, the engine kind and
whether its close succeeded; cleanup itself always returns (never throws). -/
def cleanup {β γ : Type} (close : BrowserType → β → Bool) (st : State β γ) :
    State β γ × List (BrowserType × Bool) :=
  let log := st.browsers.map fun tb => (tb.1, close tb.1 tb.2)
  ({ browsers := [], contexts := [] }, log)

end BrowserManager

namespace ReportManager

/-- Summary block of a TestReport (src/src/types/index.ts). -/
structure Summary where
  totalDevices : ℕ
  devicesWithDiffs : ℕ
  totalDiffs : ℕ
deriving Repr, DecidableEq

/-- Aggregated test report (src/src/types/index.ts, interface TestReport). -/
structure TestReport where
  timestamp : String
  summary : Summary
  screenshots : List Screenshot
  diffs : List DiffResult
deriving Repr, DecidableEq

/-- Embedding of the report object built by ReportManager.generate
(src/unnamed/part_005 lines 259-280): totalDevices is the length of the
screenshots list, devicesWithDiffs the number of diffs with hasDiff, and
totalDiffs the reduce-sum of 1 per diff with hasDiff; the screenshot and
diff lists are copied through.  The timestamp string and the surrounding
file writes (JSON and HTML renderings) do not affect the report fields and
are abstracted: the timestamp is a parameter. -/
def generate (timestamp : String) (screenshots : List Screenshot)
    (diffs : List DiffResult) : TestReport :=
  { timestamp := timestamp
    summary :=
      { totalDevices := screenshots.length
        devicesWithDiffs := (diffs.filter fun d => d.hasDiff).length
        totalDiffs := diffs.foldl (fun sum d => sum + if d.hasDiff then 1 else 0) 0 }
    screenshots := screenshots
    diffs := diffs }

end ReportManager

namespace Fixtures

/-- One opaque RGBA pixel used as a decoded raw buffer in concrete runs. -/
def onePixel : List ℕ := [0, 0, 0, 255]

/-- Concrete screenshot record used by the concrete runs. -/
def shotA : Screenshot :=
  { device := "iPhone 12", filepath := "screenshots/iphone-12.png" }

/-- Raster environment in which the baseline exists and pixelmatch reports
no differing pixel on a 1 by 1 image: the matched-under-tolerance case. -/
def envMatch : RasterEnv :=
  { fileExists := fun _ => true
    decode := fun _ => some onePixel
    decodeGray := fun _ => some onePixel
    metadata := fun _ => some (1, 1)
    pixelmatch := fun _ _ w h _ => (0, List.replicate (w * h * 4) 0) }

/-- Raster environment in which the baseline exists and pixelmatch reports
one differing pixel on a 2 by 2 image. -/
def envOneDiff : RasterEnv :=
  { fileExists := fun _ => true
    decode := fun _ => some (List.replicate 16 0)
    decodeGray := fun _ => some (List.replicate 16 0)
    metadata := fun _ => some (2, 2)
    pixelmatch := fun _ _ _ _ _ =>
      (1, [255, 0, 0, 255] ++ List.replicate 12 0) }

/-- Raster environment in which no baseline file exists for any path. -/
def envNoBaseline : RasterEnv :=
  { fileExists := fun _ => false
    decode := fun _ => some onePixel
    decodeGray := fun _ => some onePixel
    metadata := fun _ => some (1, 1)
    pixelmatch := fun _ _ w h _ => (0, List.replicate (w * h * 4) 0) }

/-- Raster environment for the ignore-region run: a 1 by 1 image whose
single pixel pixelmatch flags as differing, filling the diff buffer with the
red marker. -/
def envMasked : RasterEnv :=
  { fileExists := fun _ => true
    decode := fun _ => some onePixel
    decodeGray := fun _ => some onePixel
    metadata := fun _ => some (1, 1)
    pixelmatch := fun _ _ _ _ _ => (1, [255, 0, 0, 255]) }

/-- Diff options whose single ignore region covers the whole 1 by 1 image. -/
def optsMasked : SmartDiff.DiffOptions :=
  { ignoreRegions := [{ x := 0, y := 0, width := 1, height := 1 }] }

/-- Screenshot record with a browser, for the smart DiffManager runs. -/
def sshotA : SmartDiff.SScreenshot :=
  { device := "iPhone 12", browser := "chromium",
    filepath := "screenshots/iphone-12.png" }

/-- First default device of the orchestrator (src/src/core/PixelPerfect.ts). -/
def iPhone12 : Device :=
  { name := "iPhone 12", viewportWidth := 390, viewportHeight := 844
    deviceScaleFactor := 3, isMobile := true, hasTouch := true
    userAgent := "Mozilla/5.0 iPhone" }

/-- Second default device of the orchestrator. -/
def iPadPro : Device :=
  { name := "iPad Pro", viewportWidth := 1024, viewportHeight := 1366
    deviceScaleFactor := 2, isMobile := true, hasTouch := true
    userAgent := "Mozilla/5.0 iPad" }

/-- Third default device of the orchestrator. -/
def desktop : Device :=
  { name := "Desktop", viewportWidth := 1920, viewportHeight := 1080
    deviceScaleFactor := 1, isMobile := false, hasTouch := false
    userAgent := "Mozilla/5.0 Windows" }

/-- The three default devices, as configured by the orchestrator when no
device list is supplied. -/
def defaultDevices : List Device := [iPhone12, iPadPro, desktop]

/-- Capture collaborator that fails for the iPad Pro device and succeeds for
every other one. -/
def captureMixed (d : Device) : Except String Screenshot :=
  if d.name = "iPad Pro" then
    .error ("Screenshot capture failed for " ++ d.name)
  else
    .ok { device := d.name, filepath := "screenshots/" ++ d.name ++ ".png" }

/-- Diff result returned for a screenshot with no baseline, at the concrete
fixture inputs. -/
def rNoBaseline : DiffResult :=
  { device := "iPhone 12", hasDiff := false, diffPercentage := 0,
    diffPath := none, message := "No baseline available for comparison" }

end Fixtures

/-! Theorems.  Each claim of the specification is settled by one theorem
below; helper lemmas carry shared list facts. -/

theorem foldl_hasDiff_count (diffs : List DiffResult) (n : ℕ) :
    diffs.foldl (fun sum d => sum + if d.hasDiff then 1 else 0) n
      = n + (diffs.filter fun d => d.hasDiff).length := by
  induction diffs generalizing n with
  | nil => simp
  | cons d ds ih =>
    cases hd : d.hasDiff
    · simp [List.foldl_cons, ih, hd]
    · simp [List.foldl_cons, ih, hd]
      omega

/-- C3: for every screenshot whose derived baseline path does not exist, the
per-screenshot comparison never throws (returns ok, not error) and returns
exactly the no-baseline DiffResult with hasDiff false, diffPercentage 0,
null diffPath and the fixed message. -/
theorem compareScreenshot_missingBaseline (env : RasterEnv)
    (cfg : DiffManager.Thresholds) (s : Screenshot)
    (h : env.fileExists (baselinePathOf s.filepath) = false) :
    DiffManager.compareScreenshot env cfg s =
      .ok { device := s.device, hasDiff := false, diffPercentage := 0,
            diffPath := none,
            message := "No baseline available for comparison" } := by
  simp [DiffManager.compareScreenshot, h]

/-- Witness for C3 at the concrete no-baseline environment. -/
theorem compareScreenshot_missingBaseline_witness :
    DiffManager.compareScreenshot Fixtures.envNoBaseline {} Fixtures.shotA =
      .ok { device := "iPhone 12", hasDiff := false, diffPercentage := 0,
            diffPath := none,
            message := "No baseline available for comparison" } :=
  compareScreenshot_missingBaseline Fixtures.envNoBaseline {} Fixtures.shotA rfl

/-- C6: the navigation retry loop of captureScreenshot makes up to 3 total
goto attempts, sleeps the fixed 2000 ms backoff between consecutive
attempts, stops at the first success, and reports failure (raising the
navigation error) exactly when all 3 attempts fail. -/
theorem navigateWithRetry_spec (goto : ℕ → Bool) :
    ScreenshotManager.navigateWithRetry goto =
      if goto 0 then (true, [ScreenshotManager.NavEvent.attempt 0])
      else if goto 1 then
        (true, [ScreenshotManager.NavEvent.attempt 0,
                ScreenshotManager.NavEvent.sleep 2000,
                ScreenshotManager.NavEvent.attempt 1])
      else if goto 2 then
        (true, [ScreenshotManager.NavEvent.attempt 0,
                ScreenshotManager.NavEvent.sleep 2000,
                ScreenshotManager.NavEvent.attempt 1,
                ScreenshotManager.NavEvent.sleep 2000,
                ScreenshotManager.NavEvent.attempt 2])
      else
        (false, [ScreenshotManager.NavEvent.attempt 0,
                 ScreenshotManager.NavEvent.sleep 2000,
                 ScreenshotManager.NavEvent.attempt 1,
                 ScreenshotManager.NavEvent.sleep 2000,
                 ScreenshotManager.NavEvent.attempt 2]) := by
  cases h0 : goto 0 <;> cases h1 : goto 1 <;> cases h2 : goto 2 <;>
    simp [ScreenshotManager.navigateWithRetry, ScreenshotManager.navLoop,
      h0, h1, h2]

/-- C8: every report built by ReportManager.generate satisfies
summary.totalDevices = length of the screenshots list,
summary.devicesWithDiffs = number of diffs with hasDiff true, and
summary.totalDiffs = summary.devicesWithDiffs. -/
theorem generate_summary_invariants (ts : String) (ss : List Screenshot)
    (ds : List DiffResult) :
    (ReportManager.generate ts ss ds).summary.totalDevices = ss.length ∧
    (ReportManager.generate ts ss ds).summary.devicesWithDiffs =
      (ds.filter fun d => d.hasDiff).length ∧
    (ReportManager.generate ts ss ds).summary.totalDiffs =
      (ReportManager.generate ts ss ds).summary.devicesWithDiffs := by
  refine ⟨rfl, rfl, ?_⟩
  simp [ReportManager.generate, foldl_hasDiff_count]

/-- C10: cleanup always returns (it is a total function), leaves both the
browsers map and the context cache empty — so getActiveBrowserCount is 0 —
and attempts the close of every held browser handle in order, regardless of
which closes fail (the close collaborator is arbitrary, including ones that
fail on every handle). -/
theorem cleanup_clears_and_attempts_all {β γ : Type}
    (close : BrowserType → β → Bool) (st : BrowserManager.State β γ) :
    BrowserManager.getActiveBrowserCount (BrowserManager.cleanup close st).1 = 0 ∧
    (BrowserManager.cleanup close st).1.browsers = [] ∧
    (BrowserManager.cleanup close st).1.contexts = [] ∧
    (BrowserManager.cleanup close st).2.map Prod.fst =
      st.browsers.map Prod.fst := by
  refine ⟨rfl, rfl, rfl, ?_⟩
  simp [BrowserManager.cleanup]

/-- C9: when DiffManager.compare succeeds it returns exactly one DiffResult
per input screenshot, and the result at index i is the comparison result of
the screenshot at index i. -/
theorem compare_one_result_per_screenshot (env : RasterEnv)
    (cfg : DiffManager.Thresholds) (ss : List Screenshot)
    (ds : List DiffResult) (hok : DiffManager.compare env cfg ss = .ok ds) :
    ds.length = ss.length ∧
    ∀ i (hi : i < ss.length) (hj : i < ds.length),
      DiffManager.compareScreenshot env cfg (ss.get ⟨i, hi⟩) =
        .ok (ds.get ⟨i, hj⟩) := by
  induction ss generalizing ds with
  | nil =>
    simp [DiffManager.compare] at hok
    subst hok
    exact ⟨rfl, fun i hi _ => absurd hi (Nat.not_lt_zero i)⟩
  | cons s rest ih =>
    rw [DiffManager.compare] at hok
    cases hcs : DiffManager.compareScreenshot env cfg s with
    | error e => rw [hcs] at hok; simp at hok
    | ok d =>
      rw [hcs] at hok
      cases hrec : DiffManager.compare env cfg rest with
      | error e => rw [hrec] at hok; simp at hok
      | ok ds2 =>
        rw [hrec] at hok
        simp only [Except.ok.injEq] at hok
        subst hok
        obtain ⟨hlen, hidx⟩ := ih ds2 hrec
        refine ⟨by simp [hlen], ?_⟩
        intro i hi hj
        cases i with
        | zero => simpa using hcs
        | succ m =>
          have hm : m < rest.length := by simpa using hi
          have hm2 : m < ds2.length := by simpa using hj
          simpa using hidx m hm hm2

/-- Witness for C9 on a concrete one-element run. -/
theorem compare_one_result_per_screenshot_witness :
    ([Fixtures.rNoBaseline] : List DiffResult).length =
      ([Fixtures.shotA] : List Screenshot).length ∧
    ∀ i (hi : i < ([Fixtures.shotA] : List Screenshot).length)
      (hj : i < ([Fixtures.rNoBaseline] : List DiffResult).length),
      DiffManager.compareScreenshot Fixtures.envNoBaseline {}
          (([Fixtures.shotA] : List Screenshot).get ⟨i, hi⟩) =
        .ok (([Fixtures.rNoBaseline] : List DiffResult).get ⟨i, hj⟩) :=
  compare_one_result_per_screenshot Fixtures.envNoBaseline {}
    [Fixtures.shotA] [Fixtures.rNoBaseline] rfl

/-- C4: when a baseline exists and both images decode, the produced
DiffResult has diffPercentage equal to 100 times the differing-pixel count
divided by width times height of the current image, hasDiff exactly when
that percentage is positive, and the message is the fixed no-difference
string when clean and the found-pixels string (with the percentage rendered
to two decimals) otherwise. -/
theorem compareScreenshot_formula (env : RasterEnv)
    (cfg : DiffManager.Thresholds) (s : Screenshot) (cur base : List ℕ)
    (w h n : ℕ)
    (hb : env.fileExists (baselinePathOf s.filepath) = true)
    (hc : env.decode s.filepath = some cur)
    (hB : env.decode (baselinePathOf s.filepath) = some base)
    (hm : env.metadata s.filepath = some (w, h))
    (hn : (env.pixelmatch cur base w h
      { threshold := cfg.pixelMatch, includeAA := true }).1 = n) :
    ∃ r : DiffResult,
      DiffManager.compareScreenshot env cfg s = .ok r ∧
      r.diffPercentage = 100 * (n : ℚ) / ((w : ℚ) * (h : ℚ)) ∧
      (r.hasDiff = true ↔ 0 < r.diffPercentage) ∧
      (r.hasDiff = false → r.message = "No differences found") ∧
      (r.hasDiff = true →
        r.message = "Found " ++ toString n ++ " different pixels (" ++
          toFixed2 r.diffPercentage ++ "%)") := by
  refine ⟨{ device := s.device
            hasDiff := decide (0 < (n : ℚ) / ((w : ℚ) * (h : ℚ)) * 100)
            diffPercentage := (n : ℚ) / ((w : ℚ) * (h : ℚ)) * 100
            diffPath :=
              if decide (0 < (n : ℚ) / ((w : ℚ) * (h : ℚ)) * 100) = true then
                some (replaceFirst s.filepath ".png" "-diff.png")
              else none
            message :=
              if decide (0 < (n : ℚ) / ((w : ℚ) * (h : ℚ)) * 100) = true then
                "Found " ++ toString n ++ " different pixels (" ++
                  toFixed2 ((n : ℚ) / ((w : ℚ) * (h : ℚ)) * 100) ++ "%)"
              else "No differences found" }, ?_, ?_, ?_, ?_, ?_⟩
  · simp [DiffManager.compareScreenshot, hb, hc, hB, hm, hn]
  · show (n : ℚ) / ((w : ℚ) * (h : ℚ)) * 100 = 100 * (n : ℚ) / ((w : ℚ) * (h : ℚ))
    ring
  · simp
  · intro hfalse
    have hnp : ¬ (0 < (n : ℚ) / ((w : ℚ) * (h : ℚ)) * 100) := by
      simpa using hfalse
    simp [hnp]
  · intro htrue
    have hp : 0 < (n : ℚ) / ((w : ℚ) * (h : ℚ)) * 100 := by
      simpa using htrue
    simp [hp]

/-- Witness for C4: one differing pixel on a 2 by 2 image. -/
theorem compareScreenshot_formula_witness :
    ∃ r : DiffResult,
      DiffManager.compareScreenshot Fixtures.envOneDiff {} Fixtures.shotA =
        .ok r ∧
      r.diffPercentage =
        100 * ((1 : ℕ) : ℚ) / (((2 : ℕ) : ℚ) * ((2 : ℕ) : ℚ)) ∧
      (r.hasDiff = true ↔ 0 < r.diffPercentage) ∧
      (r.hasDiff = false → r.message = "No differences found") ∧
      (r.hasDiff = true →
        r.message = "Found " ++ toString (1 : ℕ) ++ " different pixels (" ++
          toFixed2 r.diffPercentage ++ "%)") :=
  compareScreenshot_formula Fixtures.envOneDiff {} Fixtures.shotA
    (List.replicate 16 0) (List.replicate 16 0) 2 2 1
    rfl rfl rfl rfl rfl

/-- C2: every DiffResult produced by the diff engine has a non-null diffPath
exactly when hasDiff is true, and diffPercentage is 0 exactly when either no
baseline file existed or pixelmatch reported zero differing pixels under the
configured tolerance. -/
theorem compareScreenshot_result_invariants (env : RasterEnv)
    (cfg : DiffManager.Thresholds) (s : Screenshot) (r : DiffResult)
    (hok : DiffManager.compareScreenshot env cfg s = .ok r)
    (hdim : ∀ w h, env.metadata s.filepath = some (w, h) → 0 < w ∧ 0 < h) :
    (r.diffPath ≠ none ↔ r.hasDiff = true) ∧
    (r.diffPercentage = 0 ↔
      (env.fileExists (baselinePathOf s.filepath) = false ∨
        DiffManager.pixelmatchCount env cfg s = some 0)) := by
  cases hfe : env.fileExists (baselinePathOf s.filepath) with
  | false =>
    simp [DiffManager.compareScreenshot, hfe] at hok
    subst hok
    simp [hfe]
  | true =>
    rcases hc : env.decode s.filepath with _ | cur
    · simp [DiffManager.compareScreenshot, hfe, hc] at hok
    rcases hB : env.decode (baselinePathOf s.filepath) with _ | base
    · simp [DiffManager.compareScreenshot, hfe, hc, hB] at hok
    rcases hm : env.metadata s.filepath with _ | wh
    · simp [DiffManager.compareScreenshot, hfe, hc, hB, hm] at hok
    obtain ⟨w, h⟩ := wh
    obtain ⟨hw, hh⟩ := hdim w h hm
    have hwh : ((w : ℚ) * (h : ℚ)) ≠ 0 := by
      have h1 : ((w : ℚ)) ≠ 0 := Nat.cast_ne_zero.mpr (by omega)
      have h2 : ((h : ℚ)) ≠ 0 := Nat.cast_ne_zero.mpr (by omega)
      exact mul_ne_zero h1 h2
    simp [DiffManager.compareScreenshot, hfe, hc, hB, hm] at hok
    subst hok
    constructor
    · by_cases hp :
        (0 : ℚ) <
          ((env.pixelmatch cur base w h
            { threshold := cfg.pixelMatch, includeAA := true }).1 : ℚ) /
            ((w : ℚ) * (h : ℚ)) * 100
      · simp [hp]
      · simp [hp]
    · simp only [DiffManager.pixelmatchCount, hc, hB, hm, hfe]
      rw [mul_eq_zero, div_eq_zero_iff]
      simp [hwh]

theorem createBatches_flatten {α : Type} (batchSize : ℕ)
    (hb : 0 < batchSize) (items : List α) :
    (ScreenshotManager.createBatches batchSize items).flatten = items := by
  have main : ∀ n (items : List α), items.length ≤ n →
      (ScreenshotManager.createBatches batchSize items).flatten = items := by
    intro n
    induction n with
    | zero =>
      intro items hlen
      have hnil : items = [] :=
        List.eq_nil_of_length_eq_zero (Nat.le_zero.mp hlen)
      subst hnil
      simp [ScreenshotManager.createBatches]
    | succ n ih =>
      intro items hlen
      match items with
      | [] => simp [ScreenshotManager.createBatches]
      | x :: xs =>
        simp only [ScreenshotManager.createBatches]
        rw [dif_neg (Nat.pos_iff_ne_zero.mp hb)]
        simp only [List.flatten_cons]
        rw [ih ((x :: xs).drop batchSize)
          (by simp only [List.length_drop, List.length_cons]
              simp only [List.length_cons] at hlen
              omega)]
        exact List.take_append_drop batchSize (x :: xs)
  exact main items.length items le_rfl

theorem createBatches_batch_le {α : Type} (batchSize : ℕ) (items : List α) :
    ∀ b ∈ ScreenshotManager.createBatches batchSize items,
      b.length ≤ batchSize := by
  have main : ∀ n (items : List α), items.length ≤ n →
      ∀ b ∈ ScreenshotManager.createBatches batchSize items,
        b.length ≤ batchSize := by
    intro n
    induction n with
    | zero =>
      intro items hlen
      have hnil : items = [] :=
        List.eq_nil_of_length_eq_zero (Nat.le_zero.mp hlen)
      subst hnil
      simp [ScreenshotManager.createBatches]
    | succ n ih =>
      intro items hlen
      match items with
      | [] => simp [ScreenshotManager.createBatches]
      | x :: xs =>
        simp only [ScreenshotManager.createBatches]
        by_cases h0 : batchSize = 0
        · simp [h0]
        · rw [dif_neg h0]
          intro b hb
          rcases List.mem_cons.mp hb with hhead | htail
          · subst hhead
            simp
          · exact ih ((x :: xs).drop batchSize)
              (by simp only [List.length_drop, List.length_cons]
                  simp only [List.length_cons] at hlen
                  omega) b htail
  exact main items.length items le_rfl

theorem length_flatMap_pairs {α β : Type} (bts : List β) (b : List α) :
    (b.flatMap fun a => bts.map fun bt => (a, bt)).length =
      b.length * bts.length := by
  induction b with
  | nil => simp
  | cons x xs ih => simp [ih, Nat.succ_mul, Nat.add_comm]

theorem runBatches_eq (capture : Device → Except String Screenshot)
    (bs : List (List Device)) :
    ScreenshotManager.runBatches capture bs =
      (bs.flatten.filterMap (fun d => (capture d).toOption),
       bs.flatten.filterMap (fun d =>
         match capture d with | .error e => some e | .ok _ => none)) := by
  induction bs with
  | nil => simp [ScreenshotManager.runBatches]
  | cons b rest ih =>
    simp only [ScreenshotManager.runBatches, ih, List.flatten_cons,
      List.filterMap_append, ScreenshotManager.captureBatch,
      List.filterMap_map]
    exact Prod.mk.injEq .. ▸ ⟨by rfl, by rfl⟩

/-- C5: the retrying captureScreenshots contains every per-target failure:
the returned screenshot list is exactly the successful captures, in input
order, across the whole batch sequence (so the remaining targets of a batch
with a failure, and all later batches, still complete and are kept), and
the caught errors are collected into the log instead of propagating — the
function is total and never propagates a per-target failure. -/
theorem captureScreenshots_partial_failure
    (capture : Device → Except String Screenshot) (maxParallelBrowsers : ℕ)
    (devices : List Device) (hpar : 0 < maxParallelBrowsers) :
    ScreenshotManager.captureScreenshots capture maxParallelBrowsers devices =
      (devices.filterMap (fun d => (capture d).toOption),
       devices.filterMap (fun d =>
         match capture d with | .error e => some e | .ok _ => none)) := by
  unfold ScreenshotManager.captureScreenshots
  rw [runBatches_eq,
    createBatches_flatten maxParallelBrowsers hpar devices]

/-- Witness for C5: a three-device batch in which the iPad Pro capture
fails; the two other captures are still returned and the error is logged. -/
theorem captureScreenshots_partial_failure_witness :
    ScreenshotManager.captureScreenshots Fixtures.captureMixed 3
        Fixtures.defaultDevices =
      (Fixtures.defaultDevices.filterMap
        (fun d => (Fixtures.captureMixed d).toOption),
       Fixtures.defaultDevices.filterMap (fun d =>
         match Fixtures.captureMixed d with
         | .error e => some e | .ok _ => none)) :=
  captureScreenshots_partial_failure Fixtures.captureMixed 3
    Fixtures.defaultDevices (by decide)

/-- C7 counterexample: with the default maxParallelBrowsers of 3, the three
default devices and two requested browser types, the very first batch of
the multi-browser captureScreenshots launches 6 capture operations
concurrently — more than maxParallelBrowsers — because each batch starts
one capture per (device, browserType) pair.  This refutes the claim that at
no point more than maxParallelBrowsers captures are in flight regardless of
the number of browser types. -/
theorem captureSchedule_exceeds_cap :
    ∃ batch ∈ ScreenshotManager.captureSchedule Fixtures.defaultDevices
        [BrowserType.chromium, BrowserType.firefox] 3,
      3 < batch.length := by
  refine ⟨[(Fixtures.iPhone12, BrowserType.chromium),
           (Fixtures.iPhone12, BrowserType.firefox),
           (Fixtures.iPadPro, BrowserType.chromium),
           (Fixtures.iPadPro, BrowserType.firefox),
           (Fixtures.desktop, BrowserType.chromium),
           (Fixtures.desktop, BrowserType.firefox)], ?_, ?_⟩
  · simp [ScreenshotManager.captureSchedule,
      ScreenshotManager.createBatches, Fixtures.defaultDevices]
  · simp

/-- C7 as amended: the devices are partitioned into consecutive batches of
at most maxParallelBrowsers devices (their concatenation is the device list
in order), batches are strictly sequenced, and each batch has at most
maxParallelBrowsers times the number of requested browser types capture
operations in flight — not maxParallelBrowsers itself. -/
theorem captureSchedule_bounds (devices : List Device)
    (browserTypes : List BrowserType) (maxParallelBrowsers : ℕ)
    (hpar : 0 < maxParallelBrowsers) :
    (ScreenshotManager.createBatches maxParallelBrowsers devices).flatten =
      devices ∧
    (∀ b ∈ ScreenshotManager.createBatches maxParallelBrowsers devices,
      b.length ≤ maxParallelBrowsers) ∧
    (∀ batch ∈ ScreenshotManager.captureSchedule devices browserTypes
        maxParallelBrowsers,
      batch.length ≤ maxParallelBrowsers * browserTypes.length) := by
  refine ⟨createBatches_flatten maxParallelBrowsers hpar devices,
    createBatches_batch_le maxParallelBrowsers devices, ?_⟩
  intro batch hbatch
  simp only [ScreenshotManager.captureSchedule, List.mem_map] at hbatch
  obtain ⟨b, hbmem, hbeq⟩ := hbatch
  subst hbeq
  have hble : b.length ≤ maxParallelBrowsers :=
    createBatches_batch_le maxParallelBrowsers devices b hbmem
  calc (b.flatMap fun device =>
          browserTypes.map fun bt => (device, bt)).length
      = b.length * browserTypes.length :=
        length_flatMap_pairs browserTypes b
    _ ≤ maxParallelBrowsers * browserTypes.length :=
        Nat.mul_le_mul_right browserTypes.length hble

/-- Witness for C7 as amended, at the counterexample inputs. -/
theorem captureSchedule_bounds_witness :
    (ScreenshotManager.createBatches 3 Fixtures.defaultDevices).flatten =
      Fixtures.defaultDevices ∧
    (∀ b ∈ ScreenshotManager.createBatches 3 Fixtures.defaultDevices,
      b.length ≤ 3) ∧
    (∀ batch ∈ ScreenshotManager.captureSchedule Fixtures.defaultDevices
        [BrowserType.chromium, BrowserType.firefox] 3,
      batch.length ≤ 3 * ([BrowserType.chromium,
        BrowserType.firefox] : List BrowserType).length) :=
  captureSchedule_bounds Fixtures.defaultDevices
    [BrowserType.chromium, BrowserType.firefox] 3 (by decide)

/-- Witness for C2 on a concrete missing-baseline run. -/
theorem compareScreenshot_result_invariants_witness :
    (Fixtures.rNoBaseline.diffPath ≠ none ↔
      Fixtures.rNoBaseline.hasDiff = true) ∧
    (Fixtures.rNoBaseline.diffPercentage = 0 ↔
      (Fixtures.envNoBaseline.fileExists
          (baselinePathOf Fixtures.shotA.filepath) = false ∨
        DiffManager.pixelmatchCount Fixtures.envNoBaseline {}
          Fixtures.shotA = some 0)) :=
  compareScreenshot_result_invariants Fixtures.envNoBaseline {}
    Fixtures.shotA Fixtures.rNoBaseline rfl
    (fun w h hwh => by
      simp only [Fixtures.envNoBaseline, Option.some.injEq,
        Prod.mk.injEq] at hwh
      omega)

/-- C1: refutation by evaluation.  On a 1 by 1 image whose single pixel
pixelmatch flags as differing, with an ignore region covering the whole
image, the smart DiffManager zeroes the visualized diff buffer (the written
diff image is all zeroes) yet still reports diffPercentage 100 and hasDiff
true: applyIgnoreRegions runs after pixelmatch and never adjusts the
differing-pixel count, so masked pixels are excluded from the visualization
but still contribute to the statistic, contradicting the specified
behaviour of ignore regions. -/
theorem smart_maskedPixel_still_counted :
    ∃ r written,
      SmartDiff.compareScreenshot Fixtures.envMasked Fixtures.optsMasked
          Fixtures.sshotA = .ok (r, written) ∧
      r.diffPercentage = 100 ∧
      r.hasDiff = true ∧
      written = some [0, 0, 0, 0] := by
  refine ⟨_, _, rfl, ?_, ?_, ?_⟩
  · show (((1 : ℕ) : ℚ)) / (((1 : ℕ) : ℚ) * ((1 : ℕ) : ℚ)) * 100 = 100
    norm_num
  · show decide ((0 : ℚ) <
      ((1 : ℕ) : ℚ) / (((1 : ℕ) : ℚ) * ((1 : ℕ) : ℚ)) * 100) = true
    simp only [decide_eq_true_eq]
    norm_num
  · have hpos : (0 : ℚ) <
        ((1 : ℕ) : ℚ) / (((1 : ℕ) : ℚ) * ((1 : ℕ) : ℚ)) * 100 := by
      norm_num
    simp only [SmartDiff.compareScreenshot, Fixtures.envMasked,
      Fixtures.optsMasked, Fixtures.sshotA, SmartDiff.preprocessImage,
      Fixtures.onePixel]
    simp only [decide_eq_true hpos, if_true]
    rfl

end PixelPerfect
